import Mathlib

/-!
Shallow embedding of `src/clibroker/clibroker.py` (PyCliBroker).

Strings are embedded as `List Char` (Python `str`), streams as explicit
records, and each request's `execute` method as a pure state transformer
on the session record.  Promise settlement is embedded by the outcome type
`ExecResult`: `resolved` stands for `cfuture.set_result`, `rejected` for
`cfuture.set_exception`, and `raised` for an exception that propagates out
of `execute` leaving the future untouched.
-/

namespace CliBroker

/-- A Python exception as far as the broker distinguishes them:
`KeyboardInterrupt` is re-raised by every request's handler, any other
exception is caught by the bare `except:` clause.  `msg` abstracts the
exception object. -/
inductive PyErr where
  | keyboardInterrupt
  | error (msg : List Char)
deriving DecidableEq

/-- Input stream model.  `lines` holds the successive results of
`readline()` calls (Python's `readline` returns `''` at EOF); `fault`,
when set, is the exception the next `readline()` call raises.  Embeds the
input-stream capability of `clibroker.py` (`session.stdin`). -/
structure InStream where
  lines : List (List Char)
  fault : Option PyErr
deriving DecidableEq

/-- `stdin.readline()`: raises `fault` when one is injected, otherwise
returns the next line (`''` at EOF) and the advanced stream. -/
def InStream.readline (s : InStream) : Except PyErr (List Char × InStream) :=
  match s.fault with
  | some e => .error e
  | none =>
    match s.lines with
    | [] => .ok ([], s)
    | l :: ls => .ok (l, { s with lines := ls })

/-- Output/error stream model.  `chunks` records the successive `write`
calls, `flushes` counts `flush` calls; `writeFault`/`flushFault`, when
set, are the exceptions the next `write`/`flush` raise.  Embeds
`session.stdout` / `session.stderr`. -/
structure OutStream where
  chunks : List (List Char)
  flushes : Nat
  writeFault : Option PyErr
  flushFault : Option PyErr
deriving DecidableEq

/-- `io.write(msg)`: Python text streams return the number of characters
written; on success that is the full message length. -/
def OutStream.write (s : OutStream) (msg : List Char) :
    Except PyErr (Nat × OutStream) :=
  match s.writeFault with
  | some e => .error e
  | none => .ok (msg.length, { s with chunks := s.chunks ++ [msg] })

/-- `io.flush()`. -/
def OutStream.flush (s : OutStream) : Except PyErr OutStream :=
  match s.flushFault with
  | some e => .error e
  | none => .ok { s with flushes := s.flushes + 1 }

/-- A fresh, fault-free output stream: model of the process-wide
`sys.stdout` / `sys.stderr` defaults used by a parentless `Session`. -/
def sysOutStream : OutStream := ⟨[], 0, none, none⟩

/-- Model of the process-wide `sys.stdin` default. -/
def sysInStream : InStream := ⟨[], none⟩

/-- Modelled from the spec: `isempty` comes from the repository's `utils`
module, which is not under `src/`; per the spec's "refilling once from
the input stream if the buffer is currently empty", it tests emptiness. -/
def isempty (l : List Char) : Bool := l.isEmpty

/-- The requests the claims are about, as built by the `Session` methods:
`read(n)` (after the `n < 0` routing, so `n : Nat`), `readAll`,
`readline`, `write` (with the message already joined by `buildmsg` and
the autoflush flag already resolved), and `flush`. -/
inductive Request where
  | read (n : Nat)
  | readAll
  | readline
  | write (msg : List Char) (err : Bool) (autoflush : Bool)
  | flush (flushStdout : Bool) (flushStderr : Bool)
deriving DecidableEq

/-- The `Session` object: identity (`sid`, standing in for Python object
identity), back-reference to the parent's identity, resolved config
(`autoflush` and the three streams), the input `buffer`, the `pending`
queue, the `subsession` slot, and the `_finish_event` flag. -/
structure Session where
  sid : Nat
  parentSid : Option Nat
  autoflush : Bool
  stdout : OutStream
  stderr : OutStream
  stdin : InStream
  buffer : List Char
  pending : List Request
  subsession : Option Nat
  finished : Bool
deriving DecidableEq

/-- `Session.__init__(parent, autoflush, stdout, stderr, stdin)`: with a
parent, each unset field is taken from the parent's resolved config
(`autoflush if autoflush is not None else parent.autoflush`, and
likewise for the streams); without a parent, `autoflush` defaults to
`False` and the streams to the process streams.  `sid` is the fresh
object's identity. -/
def Session.init (sid : Nat) (parent : Option Session) (autoflush : Option Bool)
    (stdout stderr : Option OutStream) (stdin : Option InStream) : Session :=
  match parent with
  | some p =>
    { sid, parentSid := some p.sid
      autoflush := autoflush.getD p.autoflush
      stdout := stdout.getD p.stdout
      stderr := stderr.getD p.stderr
      stdin := stdin.getD p.stdin
      buffer := [], pending := [], subsession := none, finished := false }
  | none =>
    { sid, parentSid := none
      autoflush := autoflush.getD false
      stdout := stdout.getD sysOutStream
      stderr := stderr.getD sysOutStream
      stdin := stdin.getD sysInStream
      buffer := [], pending := [], subsession := none, finished := false }

/-- The identity of the module-level `_session` object. -/
def rootSid : Nat := 0

/-- `_session = Session(autoflush=True)`: the global root session,
parentless, constructed with `autoflush` explicitly `True`. -/
def rootSession : Session :=
  Session.init rootSid none (some true) none none none

/-- The subsession object built by `Session.session(autoflush, stdout,
stderr, stdin)` at line 65: `Session(parent=self, ...)` with the given
optional overrides.  `newSid` is the fresh child's identity. -/
def Session.sessionChild (self : Session) (newSid : Nat)
    (autoflush : Option Bool) (stdout stderr : Option OutStream)
    (stdin : Option InStream) : Session :=
  Session.init newSid (some self) autoflush stdout stderr stdin

/-- The top-level convenience `def session(autoflush: bool = False):
return _session.session(autoflush)` — note that its `autoflush`
parameter is a plain `bool` defaulting to `False`, passed through as-is
(never `None`). -/
def topSession (newSid : Nat) (autoflush : Bool := false) : Session :=
  rootSession.sessionChild newSid (some autoflush) none none none

/-- The fate of a request's promise after `execute` runs: `resolved a`
embeds `self.cfuture.set_result(a)`, `rejected m` embeds
`self.cfuture.set_exception(e)` for an ordinary exception `e`, and
`raised e` embeds an exception propagating out of `execute` with the
future untouched (the `except KeyboardInterrupt: raise` branch, or an
exception thrown outside the `try` block). -/
inductive ExecResult (α : Type) where
  | resolved (a : α)
  | rejected (msg : List Char)
  | raised (e : PyErr)
deriving DecidableEq

/-- The `try: ... set_result / except KeyboardInterrupt: raise /
except: set_exception` pattern shared by every concrete request's
`execute`: a `KeyboardInterrupt` from the body is re-raised, any other
exception is stored in the future. -/
def guarded {α : Type} : Except PyErr α → ExecResult α
  | .ok a => .resolved a
  | .error .keyboardInterrupt => .raised .keyboardInterrupt
  | .error (.error m) => .rejected m

/-- `str.index` semantics: the index of the first occurrence of `c` in
the string, or `none` where Python raises `ValueError`. -/
def strIndex (c : Char) : List Char → Option Nat
  | [] => none
  | x :: xs => if x = c then some 0 else (strIndex c xs).map (· + 1)

/-- `ReadRequest._execute`: `buffer[:n], buffer[n:]`. -/
def readSlice (n : Nat) (buf : List Char) : List Char × List Char :=
  (buf.take n, buf.drop n)

/-- `ReadAllRequest._execute`: `buffer, ''`. -/
def readAllSlice (buf : List Char) : List Char × List Char := (buf, [])

/-- `ReadlineRequest._execute`: `idx = buffer.index('\n')` then
`buffer[:idx+1], buffer[idx+1:]`; on `ValueError` (no newline) the
whole buffer and `''`. -/
def readlineSlice (buf : List Char) : List Char × List Char :=
  match strIndex '\n' buf with
  | some idx => (buf.take (idx + 1), buf.drop (idx + 1))
  | none => (buf, [])

/-- The first two lines of `BaseReadRequest.execute`, which sit OUTSIDE
the `try` block: `if isempty(session.buffer): session.buffer +=
session.stdin.readline()`.  An exception from `readline` therefore
propagates out of `execute` (promise untouched). -/
def refillIfEmpty (s : Session) : Except PyErr Session :=
  if isempty s.buffer then
    match s.stdin.readline with
    | .error e => .error e
    | .ok (line, stdin') =>
      .ok { s with buffer := s.buffer ++ line, stdin := stdin' }
  else .ok s

/-- `BaseReadRequest.execute` with the subclass's `_execute` passed as
`slice`: refill outside the `try`, then the guarded body
`result, session.buffer = self._execute(session);
self.cfuture.set_result(result)`.  The three `_execute` bodies are pure
string slicing, so the guarded body itself never throws. -/
def baseReadExecute (slice : List Char → List Char × List Char)
    (s : Session) : ExecResult (List Char) × Session :=
  match refillIfEmpty s with
  | .error e => (.raised e, s)
  | .ok s1 =>
    let r := slice s1.buffer
    (.resolved r.1, { s1 with buffer := r.2 })

/-- Replace the stream `WriteRequest.execute` selected
(`io = session.stdout if not self.err else session.stderr`). -/
def Session.setOut (s : Session) (err : Bool) (io : OutStream) : Session :=
  if err then { s with stderr := io } else { s with stdout := io }

/-- `WriteRequest.execute`: pick the stream by `err`, `written =
io.write(self.msg)`, flush it when `self.autoflush`, and resolve with
`written`; an ordinary exception from `write` or `flush` rejects the
promise (with the effects performed so far kept), a `KeyboardInterrupt`
is re-raised. -/
def writeExecute (msg : List Char) (err autoflush : Bool)
    (s : Session) : ExecResult Nat × Session :=
  let io := if err then s.stderr else s.stdout
  match io.write msg with
  | .error e => (guarded (.error e), s)
  | .ok (written, io1) =>
    if autoflush then
      match io1.flush with
      | .error e => (guarded (.error e), s.setOut err io1)
      | .ok io2 => (.resolved written, s.setOut err io2)
    else (.resolved written, s.setOut err io1)

/-- The `AttributeError` message for the missing `Session.get`. -/
def attrErrGet : List Char := "Session object has no attribute get".toList

/-- The attribute lookup `session.get` performed first in
`FlushRequest.execute` (line 197, `session = session.get()`): the
`Session` class defines no attribute `get`, so in Python this lookup
unconditionally raises `AttributeError` — an ordinary exception, caught
by the request's bare `except:`. -/
def Session.getAttrGet (_ : Session) : Except PyErr Session :=
  .error (.error attrErrGet)

/-- `FlushRequest.execute`: `session = session.get()` (which raises,
see `Session.getAttrGet`), then flush `stdout` and/or `stderr` as
selected and resolve with `None`; the whole body is guarded. -/
def flushExecute (flushStdout flushStderr : Bool)
    (s : Session) : ExecResult Unit × Session :=
  match s.getAttrGet with
  | .error e => (guarded (.error e), s)
  | .ok s0 =>
    match (if flushStdout then s0.stdout.flush else .ok s0.stdout) with
    | .error e => (guarded (.error e), s0)
    | .ok io1 =>
      let s1 := { s0 with stdout := io1 }
      match (if flushStderr then s1.stderr.flush else .ok s1.stderr) with
      | .error e => (guarded (.error e), s1)
      | .ok io2 => (.resolved (), { s1 with stderr := io2 })

/-- A request's result value: a string for the read family, a character
count for writes, `None` for flushes. -/
inductive OutVal where
  | str (s : List Char)
  | num (n : Nat)
  | unit
deriving DecidableEq

/-- Map a request outcome's value. -/
def ExecResult.map {α β : Type} (f : α → β) : ExecResult α → ExecResult β
  | .resolved a => .resolved (f a)
  | .rejected m => .rejected m
  | .raised e => .raised e

/-- `req.execute(session)` dispatched over the request variants. -/
def Request.execute : Request → Session → ExecResult OutVal × Session
  | .read n, s =>
    let r := baseReadExecute (readSlice n) s
    (r.1.map .str, r.2)
  | .readAll, s =>
    let r := baseReadExecute readAllSlice s
    (r.1.map .str, r.2)
  | .readline, s =>
    let r := baseReadExecute readlineSlice s
    (r.1.map .str, r.2)
  | .write msg err af, s =>
    let r := writeExecute msg err af s
    (r.1.map .num, r.2)
  | .flush fo fe, s =>
    let r := flushExecute fo fe s
    (r.1.map (fun _ => .unit), r.2)

/-- The worker loop of `Session._runner` restricted to request
execution: pop requests in order and `req.execute(self)`; if `execute`
returns (its promise resolved or rejected) the loop continues, and if
it raises the exception propagates, killing the worker thread with the
remaining requests unexecuted. -/
def runRequests : List Request → Session → List (ExecResult OutVal) × Session
  | [], s => ([], s)
  | r :: rs, s =>
    let step := r.execute s
    match step.1 with
    | .raised e => ([.raised e], step.2)
    | out =>
      let rest := runRequests rs step.2
      (out :: rest.1, rest.2)

/-- Modelled from the spec: `shift` comes from the repository's `utils`
module, which is not under `src/`; per the spec's "return the earliest
item", it removes and returns the first element of the sequence. -/
def shift : List Request → Option Request × List Request
  | [] => (none, [])
  | x :: xs => (some x, xs)

/-- `RequestQueue`: a mutex-guarded list (the lock and condition have no
pure counterpart; atomicity is implicit in the functional model). -/
structure RequestQueue where
  queue : List Request
deriving DecidableEq

/-- `RequestQueue.push`: append and signal. -/
def RequestQueue.push (q : RequestQueue) (r : Request) : RequestQueue :=
  ⟨q.queue ++ [r]⟩

/-- `RequestQueue.pop(wait)`: after `wait_for` (non-empty or timeout),
`shift(self.queue) if not isempty(self.queue) else None`.  In the pure
model the queue seen after the wait is the current one: `none` exactly
when the queue is still empty once the timeout elapses. -/
def RequestQueue.pop (q : RequestQueue) : Option Request × RequestQueue :=
  if q.queue.isEmpty then (none, q)
  else
    let r := shift q.queue
    (r.1, ⟨r.2⟩)

/-- `RequestQueue.clear`: `self.queue = []`. -/
def RequestQueue.clear (_ : RequestQueue) : RequestQueue := ⟨[]⟩

/-- Push a whole list in order. -/
def RequestQueue.pushAll (q : RequestQueue) (rs : List Request) : RequestQueue :=
  rs.foldl RequestQueue.push q

/-- Pop `n` times, collecting the successful results in order. -/
def RequestQueue.popN : Nat → RequestQueue → List Request
  | 0, _ => []
  | n + 1, q =>
    let r := q.pop
    match r.1 with
    | none => []
    | some x => x :: RequestQueue.popN n r.2

/-- `buildmsg(data, sep)`: `sep.join(str(dat) for dat in data)`, with
each part already given in its `str` form. -/
def buildmsg (data : List (List Char)) (sep : List Char) : List Char :=
  List.intercalate sep data

/-- The message committed by `Session.write(*data, sep, err, autoflush)`:
`buildmsg(data, sep)`. -/
def Session.writeMsg (data : List (List Char)) (sep : List Char) : List Char :=
  buildmsg data sep

/-- The message committed by `Session.writeline(...)`:
`buildmsg(data, sep) + '\n'`. -/
def Session.writelineMsg (data : List (List Char)) (sep : List Char) : List Char :=
  buildmsg data sep ++ ['\n']

/-- The `WriteRequest` built by `Session.write`: message joined by
`buildmsg`, and `autoflush if autoflush is not None else
self.autoflush`. -/
def Session.writeRequest (self : Session) (data : List (List Char))
    (sep : List Char) (err : Bool) (autoflush : Option Bool) : Request :=
  .write (Session.writeMsg data sep) err (autoflush.getD self.autoflush)

/-- The `WriteRequest` built by `Session.writeline`. -/
def Session.writelineRequest (self : Session) (data : List (List Char))
    (sep : List Char) (err : Bool) (autoflush : Option Bool) : Request :=
  .write (Session.writelineMsg data sep) err (autoflush.getD self.autoflush)

/-- `InvalidStateError` carrying its message. -/
structure InvalidStateError where
  msg : List Char
deriving DecidableEq

/-- `Session.close`: `if self == _session: raise
InvalidStateError('Cannot close global session')` (identity comparison
with the module-level `_session`, embedded via `sid`), otherwise
`self.pending.clear()` and `self._finish_event.set()` — no other field
is touched, and no pending request's future is ever settled (futures
are only settled inside `Request.execute`, which `close` never calls). -/
def Session.close (self : Session) : Except InvalidStateError Session :=
  if self.sid = rootSid then
    .error ⟨"Cannot close global session".toList⟩
  else
    .ok { self with pending := (RequestQueue.clear ⟨self.pending⟩).queue
                    finished := true }

/-- `Session.__enter__`: raise on the global session; raise unless
`self == self.parent.subsession` (the argument `parentSubsession` is
the parent's current `subsession` slot, as an identity); otherwise
return `self`.  Both failures are raised synchronously at the call
site, not delivered through any future. -/
def Session.enter (self : Session) (parentSubsession : Option Nat) :
    Except InvalidStateError Session :=
  if self.sid = rootSid then
    .error ⟨"Cannot enter global session".toList⟩
  else if parentSubsession ≠ some self.sid then
    .error ⟨"Invalid enter on unregistered subsession".toList⟩
  else
    .ok self

/-- `Session.wait` observes `_finish_event`: it unblocks exactly when
the flag is set. -/
def Session.waitUnblocked (self : Session) : Bool := self.finished

/-- `Session.read(n = -1)`: `n` is a Python `int`; negative `n` commits
a `ReadAllRequest`, non-negative `n` a `ReadRequest(n=n)` whose
constructor asserts `n >= 0` (`readRequestChecked` returns `none` where
the assertion would fire). -/
def readRequestChecked (n : Int) : Option Request :=
  if n ≥ 0 then some (.read n.toNat) else none

/-- The request committed by `Session.read(n)`:
`ReadAllRequest() if n < 0 else ReadRequest(n=n)`. -/
def Session.readCommit (n : Int) : Option Request :=
  if n < 0 then some .readAll else readRequestChecked n

/-- The default argument of `Session.read`. -/
def readDefaultN : Int := -1

/-! ### Spec-side descriptions used in theorem statements -/

/-- The buffer after `BaseReadRequest.execute`'s refill step: one
`readline` result is appended exactly when the buffer is empty. -/
def refilledBuffer (s : Session) : List Char :=
  if isempty s.buffer then s.buffer ++ s.stdin.lines.headD [] else s.buffer

/-- The input stream after the refill step: one line consumed exactly
when the buffer is empty. -/
def refilledStdin (s : Session) : InStream :=
  if isempty s.buffer then { s.stdin with lines := s.stdin.lines.tail } else s.stdin

/-- Whether `execute` settled the promise (called `set_result` or
`set_exception`); `raised` outcomes leave the future untouched. -/
def ExecResult.isSettled {α : Type} : ExecResult α → Bool
  | .resolved _ => true
  | .rejected _ => true
  | .raised _ => false

/-! ### Concrete sessions for scenarios and witnesses -/

/-- Scenario D's initial session: empty buffer, fault-free input stream
whose single `readline` yields `"test"`. -/
def sessD : Session :=
  { sid := 1, parentSid := some rootSid, autoflush := true
    stdout := sysOutStream, stderr := sysOutStream
    stdin := ⟨["test".toList], none⟩
    buffer := [], pending := [], subsession := none, finished := false }

/-- Scenario C's initial session: buffer seeded with
`"test\n123\n456"`, nothing further on the input stream. -/
def sessC : Session :=
  { sessD with buffer := "test\n123\n456".toList, stdin := ⟨[], none⟩ }

/-- A clean non-root session with fault-free streams, for the write
scenarios. -/
def sessW : Session := { sessD with stdin := ⟨[], none⟩ }

/-- A session whose input stream raises an ordinary (non-interrupt)
exception on its next `readline`, with an empty buffer. -/
def sessBad : Session :=
  { sessD with stdin := ⟨[], some (.error "stream fault".toList)⟩ }

/-- A non-root subsession of the root, used as a concrete witness. -/
def sessChild : Session := rootSession.sessionChild 1 none none none none

/-! ### Helper lemmas -/

theorem refill_eq (s : Session) (h : s.stdin.fault = none) :
    refillIfEmpty s = .ok { s with buffer := refilledBuffer s, stdin := refilledStdin s } := by
  obtain ⟨sid, ps, af, so, se, ⟨ls, f⟩, buf, pend, sub, fin⟩ := s
  simp only at h
  subst h
  unfold refillIfEmpty refilledBuffer refilledStdin InStream.readline
  cases hb : isempty buf <;> cases ls <;> simp [hb]

theorem pushAll_queue (rs : List Request) (q : RequestQueue) :
    (q.pushAll rs).queue = q.queue ++ rs := by
  induction rs generalizing q with
  | nil => simp [RequestQueue.pushAll]
  | cons x xs ih =>
    show ((q.push x).pushAll xs).queue = _
    rw [ih]
    simp [RequestQueue.push]

theorem popN_all (l : List Request) :
    RequestQueue.popN l.length ⟨l⟩ = l := by
  induction l with
  | nil => rfl
  | cons x xs ih => simp [RequestQueue.popN, RequestQueue.pop, shift, ih]

/-! ### Claim theorems -/

/-- C1: the claim says every `flush(flushOutput, flushError)` request
flushes the selected streams and resolves its promise.  The code
disagrees: `FlushRequest.execute` first runs `session = session.get()`,
but `Session` defines no attribute `get`, so every flush request raises
`AttributeError`, which the bare `except:` turns into a REJECTED
promise; neither stream is ever flushed and the session is unchanged. -/
theorem flush_always_rejected (fo fe : Bool) (s : Session) :
    flushExecute fo fe s = (.rejected attrErrGet, s) ∧
    Request.execute (.flush fo fe) s = (.rejected attrErrGet, s) ∧
    (flushExecute fo fe s).1 ≠ .resolved () ∧
    (flushExecute fo fe s).2.stdout.flushes = s.stdout.flushes ∧
    (flushExecute fo fe s).2.stderr.flushes = s.stderr.flushes := by
  refine ⟨rfl, rfl, ?_, rfl, rfl⟩
  intro hc
  simp [flushExecute, Session.getAttrGet, guarded] at hc

/-- C2 (amended): a subsession created by `Session.session` with
`autoflush=None` inherits the parent's resolved autoflush; but a
parentless `Session`'s constructor default is `False` (the global
`_session` only has autoflush `True` because it is constructed with an
explicit `autoflush=True`), and the top-level convenience `session()`
declares `autoflush: bool = False` and passes it through as a concrete
bool — never `None` — so a subsession opened through it does NOT
inherit: its autoflush is exactly the argument, `False` by default. -/
theorem autoflush_inheritance (sid nsid : Nat) (p : Session)
    (so se : Option OutStream) (si : Option InStream) (af : Bool) :
    (Session.init sid (some p) none so se si).autoflush = p.autoflush ∧
    (Session.sessionChild p nsid none so se si).autoflush = p.autoflush ∧
    (Session.init sid none none so se si).autoflush = false ∧
    rootSession.autoflush = true ∧
    (topSession nsid).autoflush = false ∧
    (topSession nsid af).autoflush = af :=
  ⟨rfl, rfl, rfl, rfl, rfl, rfl⟩

/-- C2 counterexample: the claim as stated is false on the code — a
parentless session constructed without an autoflush value gets `false`,
not `true`; and the top-level `session()` call, opened without an
explicit autoflush value, yields resolved autoflush `false` even though
its parent (the root) has resolved autoflush `true`. -/
theorem autoflush_default_counterexample :
    (Session.init 1 none none none none none).autoflush = false ∧
    rootSession.autoflush = true ∧
    (topSession 1).autoflush = false ∧
    ¬ (topSession 1).autoflush = rootSession.autoflush := by decide

/-- C6: invalid-state failures are raised synchronously (`close` and
`__enter__` return/raise directly, never building a request or touching
a future): `close()` on the root session always fails; `__enter__` on
the root always fails; `__enter__` on a session that is not its
parent's current `subsession` fails; and `__enter__` on exactly the
parent's current `subsession` returns the session itself. -/
theorem invalid_state_sync (s : Session) (ps : Option Nat) :
    (s.sid = rootSid → Session.close s = .error ⟨"Cannot close global session".toList⟩) ∧
    (s.sid = rootSid → Session.enter s ps = .error ⟨"Cannot enter global session".toList⟩) ∧
    (s.sid ≠ rootSid → ps ≠ some s.sid →
      Session.enter s ps = .error ⟨"Invalid enter on unregistered subsession".toList⟩) ∧
    (s.sid ≠ rootSid → ps = some s.sid → Session.enter s ps = .ok s) := by
  refine ⟨fun h => by simp [Session.close, h],
          fun h => by simp [Session.enter, h],
          fun h h2 => by simp [Session.enter, h, h2],
          fun h h2 => by simp [Session.enter, h, h2]⟩

/-- C6 witness: the four cases at concrete sessions — the root itself,
and a child that is (or is not) the parent's registered subsession. -/
theorem invalid_state_sync_witness :
    Session.close rootSession = .error ⟨"Cannot close global session".toList⟩ ∧
    Session.enter rootSession (some 1) = .error ⟨"Cannot enter global session".toList⟩ ∧
    Session.enter sessChild (some 2) = .error ⟨"Invalid enter on unregistered subsession".toList⟩ ∧
    Session.enter sessChild (some 1) = .ok sessChild :=
  ⟨(invalid_state_sync rootSession (some 1)).1 rfl,
   (invalid_state_sync rootSession (some 1)).2.1 rfl,
   (invalid_state_sync sessChild (some 2)).2.2.1 (by decide) (by decide),
   (invalid_state_sync sessChild (some 1)).2.2.2 (by decide) rfl⟩

/-- C7: `close()` on a non-root session clears the pending queue (the
queued requests are dropped; no future is ever settled by `close`,
since futures are settled only inside `Request.execute`, which `close`
never calls) and sets `_finish_event`, unblocking `wait()`; every
other field — buffer, streams, config, identity, subsession slot — is
left unchanged. -/
theorem close_clears_and_signals (s : Session) (h : s.sid ≠ rootSid) :
    Session.close s = .ok { s with pending := [], finished := true } ∧
    ∀ s', Session.close s = .ok s' →
      s'.pending = [] ∧ s'.finished = true ∧ Session.waitUnblocked s' = true ∧
      s'.buffer = s.buffer ∧ s'.stdin = s.stdin ∧ s'.stdout = s.stdout ∧
      s'.stderr = s.stderr ∧ s'.autoflush = s.autoflush ∧
      s'.sid = s.sid ∧ s'.parentSid = s.parentSid ∧ s'.subsession = s.subsession := by
  have h1 : Session.close s = .ok { s with pending := [], finished := true } := by
    simp [Session.close, h, RequestQueue.clear]
  refine ⟨h1, fun s' hs' => ?_⟩
  rw [h1] at hs'
  cases hs'
  simp [Session.waitUnblocked]

/-- C7 witness: closing a concrete non-root child empties its queue and
fires its completion flag. -/
theorem close_clears_and_signals_witness :
    sessChild.sid ≠ rootSid ∧
    Session.close sessChild = .ok { sessChild with pending := [], finished := true } :=
  ⟨by decide, (close_clears_and_signals sessChild (by decide)).1⟩

/-- C9: `RequestQueue` is a FIFO — `push` appends at the end, `pop`
returns `none` on a queue that is still empty when the timeout elapses
and otherwise removes and returns the earliest element, `clear` leaves
the queue empty, and a sequence of pushes with no intervening clear is
returned by successive pops in exactly push order. -/
theorem queue_fifo (q : RequestQueue) (r x : Request) (xs rs : List Request) :
    (q.push r).queue = q.queue ++ [r] ∧
    RequestQueue.pop ⟨[]⟩ = (none, ⟨[]⟩) ∧
    RequestQueue.pop ⟨x :: xs⟩ = (some x, ⟨xs⟩) ∧
    (RequestQueue.clear q).queue = [] ∧
    RequestQueue.popN rs.length (RequestQueue.pushAll ⟨[]⟩ rs) = rs := by
  refine ⟨rfl, rfl, rfl, rfl, ?_⟩
  have h1 : RequestQueue.pushAll ⟨[]⟩ rs = ⟨rs⟩ := by
    have h2 := pushAll_queue rs ⟨[]⟩
    cases hq : RequestQueue.pushAll ⟨[]⟩ rs
    rw [hq] at h2
    simpa using h2
  rw [h1, popN_all]

/-- C10: `Session.read(n)` with negative `n` (including the default
`n = -1`) commits a `ReadAllRequest`, whose execution returns the
entire refilled buffer and empties it; the routing never reaches
`ReadRequest`'s `assert n >= 0` with a violating argument (the
committed request is always defined). -/
theorem negative_read_is_readall (n : Int) (s : Session) (h : s.stdin.fault = none) :
    (n < 0 → Session.readCommit n = some .readAll) ∧
    (Session.readCommit n).isSome = true ∧
    Session.readCommit readDefaultN = some .readAll ∧
    Request.execute .readAll s
      = (.resolved (.str (refilledBuffer s)),
         { s with buffer := [], stdin := refilledStdin s }) := by
  refine ⟨fun hn => ?_, ?_, ?_, ?_⟩
  · simp [Session.readCommit, hn]
  · by_cases hn : n < 0
    · simp [Session.readCommit, hn]
    · have hn' : 0 ≤ n := Int.not_lt.mp hn
      simp [Session.readCommit, readRequestChecked, hn, hn']
  · rfl
  · simp [Request.execute, baseReadExecute, refill_eq s h, readAllSlice, ExecResult.map]

/-- C10 witness: the default argument `-1` routes to read-all, and
executing it on Scenario D's session drains the whole refilled buffer. -/
theorem negative_read_is_readall_witness :
    readDefaultN < 0 ∧ sessD.stdin.fault = none ∧
    Session.readCommit readDefaultN = some .readAll ∧
    Request.execute .readAll sessD
      = (.resolved (.str (refilledBuffer sessD)),
         { sessD with buffer := [], stdin := refilledStdin sessD }) :=
  ⟨by decide, rfl, (negative_read_is_readall readDefaultN sessD rfl).2.2.1,
   (negative_read_is_readall readDefaultN sessD rfl).2.2.2⟩

theorem strIndex_eq_none (c : Char) (l : List Char) :
    strIndex c l = none ↔ c ∉ l := by
  induction l with
  | nil => simp [strIndex]
  | cons x xs ih =>
    by_cases hx : x = c
    · subst hx
      simp [strIndex]
    · simp [strIndex, hx, ih, Ne.symm hx]

theorem strIndex_some_spec (c : Char) (l : List Char) (i : Nat)
    (h : strIndex c l = some i) :
    l.take (i + 1) = l.take i ++ [c] ∧ c ∉ l.take i := by
  induction l generalizing i with
  | nil => simp [strIndex] at h
  | cons x xs ih =>
    by_cases hx : x = c
    · subst hx
      simp [strIndex] at h
      subst h
      simp
    · simp [strIndex, hx] at h
      obtain ⟨j, hj, hi⟩ := h
      subst hi
      obtain ⟨h1, h2⟩ := ih j hj
      refine ⟨?_, ?_⟩
      · simp [List.take_succ_cons, h1]
      · simp [List.take_succ_cons, h2, Ne.symm hx]

/-- C3: executing `read(n)` refills the buffer with one `readline`
exactly when the buffer is empty (`refilledBuffer` / `refilledStdin`),
returns the first `min(n, length)` characters of the refilled buffer
and keeps the rest, never returns more than `n` characters, and never
performs a second refill (the single consumed line is visible in the
resulting `stdin`).  Scenario D: on the concrete session with empty
buffer and stream content `"test"`, `read(2)` yields `"te"` and the
subsequent `read(2)` yields `"st"`. -/
theorem read_n_semantics (n : Nat) (s : Session) (h : s.stdin.fault = none) :
    Request.execute (.read n) s
      = (.resolved (.str ((refilledBuffer s).take n)),
         { s with buffer := (refilledBuffer s).drop n, stdin := refilledStdin s }) ∧
    ((refilledBuffer s).take n).length ≤ n ∧
    (refilledBuffer s).take n ++ (refilledBuffer s).drop n = refilledBuffer s ∧
    (isempty s.buffer = false → refilledBuffer s = s.buffer ∧ refilledStdin s = s.stdin) ∧
    (isempty s.buffer = true →
      refilledBuffer s = s.buffer ++ s.stdin.lines.headD [] ∧
      (refilledStdin s).lines = s.stdin.lines.tail) ∧
    Request.execute (.read 2) sessD
      = (.resolved (.str "te".toList),
         { sessD with buffer := "st".toList, stdin := ⟨[], none⟩ }) ∧
    Request.execute (.read 2) { sessD with buffer := "st".toList, stdin := ⟨[], none⟩ }
      = (.resolved (.str "st".toList),
         { sessD with buffer := [], stdin := ⟨[], none⟩ }) := by
  refine ⟨?_, ?_, ?_, fun hne => ?_, fun he => ?_, by decide, by decide⟩
  · simp [Request.execute, baseReadExecute, refill_eq s h, readSlice, ExecResult.map]
  · simp [List.length_take]
  · exact List.take_append_drop n (refilledBuffer s)
  · simp [refilledBuffer, refilledStdin, hne]
  · simp [refilledBuffer, refilledStdin, he]

/-- C3 witness: the theorem at Scenario D's concrete session. -/
theorem read_n_semantics_witness :
    sessD.stdin.fault = none ∧
    Request.execute (.read 2) sessD
      = (.resolved (.str ((refilledBuffer sessD).take 2)),
         { sessD with buffer := (refilledBuffer sessD).drop 2, stdin := refilledStdin sessD }) ∧
    ((refilledBuffer sessD).take 2).length ≤ 2 :=
  ⟨rfl, (read_n_semantics 2 sessD rfl).1, (read_n_semantics 2 sessD rfl).2.1⟩

/-- C4: executing `readline()` refills at most once, and only when the
buffer is empty; when the refilled buffer contains a newline it
resolves with the prefix up to and including the FIRST newline, keeping
the remainder as the new buffer; when it contains no newline it
resolves with the whole buffer and leaves the buffer empty, with no
further refill.  Scenario C: from buffer `"test\n123\n456"`, the first
`readline()` yields `"test\n"`, the second `"123\n"`, and the remaining
buffer is `"456"`. -/
theorem readline_semantics (s : Session) (h : s.stdin.fault = none) :
    ('\n' ∈ refilledBuffer s →
      ∃ pre rest, refilledBuffer s = pre ++ '\n' :: rest ∧ '\n' ∉ pre ∧
        Request.execute .readline s
          = (.resolved (.str (pre ++ ['\n'])),
             { s with buffer := rest, stdin := refilledStdin s })) ∧
    ('\n' ∉ refilledBuffer s →
      Request.execute .readline s
        = (.resolved (.str (refilledBuffer s)),
           { s with buffer := [], stdin := refilledStdin s })) ∧
    (isempty s.buffer = false → refilledBuffer s = s.buffer ∧ refilledStdin s = s.stdin) ∧
    Request.execute .readline sessC
      = (.resolved (.str "test\n".toList),
         { sessC with buffer := "123\n456".toList }) ∧
    Request.execute .readline { sessC with buffer := "123\n456".toList }
      = (.resolved (.str "123\n".toList),
         { sessC with buffer := "456".toList }) := by
  have hmain : Request.execute .readline s
      = (.resolved (.str (readlineSlice (refilledBuffer s)).1),
         { s with buffer := (readlineSlice (refilledBuffer s)).2, stdin := refilledStdin s }) := by
    simp [Request.execute, baseReadExecute, refill_eq s h, ExecResult.map]
  refine ⟨fun hnl => ?_, fun hnl => ?_, fun hne => ?_, by decide, by decide⟩
  · have hix : strIndex '\n' (refilledBuffer s) ≠ none := fun h0 =>
      ((strIndex_eq_none _ _).mp h0) hnl
    obtain ⟨i, hi⟩ := Option.ne_none_iff_exists'.mp hix
    obtain ⟨h1, h2⟩ := strIndex_some_spec '\n' (refilledBuffer s) i hi
    refine ⟨(refilledBuffer s).take i, (refilledBuffer s).drop (i + 1), ?_, h2, ?_⟩
    · conv_lhs => rw [← List.take_append_drop (i + 1) (refilledBuffer s)]
      rw [h1]
      simp
    · rw [hmain, readlineSlice, hi]
      simp [h1]
  · have hix : strIndex '\n' (refilledBuffer s) = none := by
      rw [strIndex_eq_none]
      simpa using hnl
    rw [hmain, readlineSlice, hix]
  · simp [refilledBuffer, refilledStdin, hne]

/-- C4 witness: the theorem at Scenario C's concrete session, whose
buffer contains a newline. -/
theorem readline_semantics_witness :
    sessC.stdin.fault = none ∧ '\n' ∈ refilledBuffer sessC ∧
    (∃ pre rest, refilledBuffer sessC = pre ++ '\n' :: rest ∧ '\n' ∉ pre ∧
      Request.execute .readline sessC
        = (.resolved (.str (pre ++ ['\n'])),
           { sessC with buffer := rest, stdin := refilledStdin sessC })) :=
  ⟨rfl, by decide, (readline_semantics sessC rfl).1 (by decide)⟩

theorem buildmsg_single (x sep : List Char) : buildmsg [x] sep = x := by
  simp [buildmsg, List.intercalate]

theorem buildmsg_cons (x y sep : List Char) (t : List (List Char)) :
    buildmsg (x :: y :: t) sep = x ++ sep ++ buildmsg (y :: t) sep := by
  simp [buildmsg, List.intercalate, List.intersperse]

/-- C5: `write` commits the message `buildmsg(data, sep)` — the string
forms of the parts joined by `sep` (`buildmsg_single`/`buildmsg_cons`
conjuncts spell the join out) — writes exactly that message as one
chunk to the stream selected by `err`, flushes it when the resolved
autoflush is set, and resolves the promise with the character count
written (the full message length); `writeline` commits exactly the same
joined message with a single `'\n'` appended.  Scenario A: the two
`write` calls produce combined output `"test 1 2 3, 123 456"`;
Scenario B: the two `writeline` calls produce
`"test 1 2 3\n123_456_789\n"`. -/
theorem write_join_semantics (data : List (List Char)) (sep x y : List Char)
    (t : List (List Char)) (err af : Bool) (s : Session)
    (h1 : (if err then s.stderr else s.stdout).writeFault = none)
    (h2 : (if err then s.stderr else s.stdout).flushFault = none) :
    Request.execute (.write (Session.writeMsg data sep) err af) s
      = (.resolved (.num (Session.writeMsg data sep).length),
         s.setOut err
           { (if err then s.stderr else s.stdout) with
             chunks := (if err then s.stderr else s.stdout).chunks
                         ++ [Session.writeMsg data sep]
             flushes := (if err then s.stderr else s.stdout).flushes
                          + (if af then 1 else 0) }) ∧
    Session.writelineMsg data sep = Session.writeMsg data sep ++ ['\n'] ∧
    Session.writeMsg [x] sep = x ∧
    Session.writeMsg (x :: y :: t) sep = x ++ sep ++ Session.writeMsg (y :: t) sep ∧
    (let s1 := (Request.execute
        (.write (Session.writeMsg ["test".toList, "1".toList, "2".toList, "3".toList]
          " ".toList) false true) sessW).2
     let s2 := (Request.execute
        (.write (Session.writeMsg [",".toList, "123".toList, "456".toList]
          " ".toList) false true) s1).2
     s2.stdout.chunks.flatten = "test 1 2 3, 123 456".toList) ∧
    (let s1 := (Request.execute
        (.write (Session.writelineMsg ["test".toList, "1".toList, "2".toList, "3".toList]
          " ".toList) false true) sessW).2
     let s2 := (Request.execute
        (.write (Session.writelineMsg ["123".toList, "456".toList, "789".toList]
          "_".toList) false true) s1).2
     s2.stdout.chunks.flatten = ("test 1 2 3".toList ++ '\n' :: "123_456_789".toList ++ ['\n'])) := by
  refine ⟨?_, rfl, buildmsg_single x sep, buildmsg_cons x y sep t, by decide, by decide⟩
  cases err <;> cases af <;>
    simp_all [Request.execute, writeExecute, OutStream.write, OutStream.flush,
      Session.setOut, ExecResult.map]

/-- C5 witness: the theorem at a concrete fault-free session. -/
theorem write_join_semantics_witness :
    sessW.stdout.writeFault = none ∧ sessW.stdout.flushFault = none ∧
    Request.execute
        (.write (Session.writeMsg ["test".toList, "1".toList] " ".toList) false true) sessW
      = (.resolved (.num (Session.writeMsg ["test".toList, "1".toList] " ".toList).length),
         sessW.setOut false
           { sessW.stdout with
             chunks := sessW.stdout.chunks
                         ++ [Session.writeMsg ["test".toList, "1".toList] " ".toList]
             flushes := sessW.stdout.flushes + 1 }) :=
  ⟨rfl, rfl,
   (write_join_semantics ["test".toList, "1".toList] " ".toList [] []
      [] false true sessW rfl rfl).1⟩

/-- A session whose output stream raises an ordinary exception on its
next `write`. -/
def sessWF : Session :=
  { sessW with stdout := ⟨[], 0, some (.error "io fail".toList), none⟩ }

/-- A session whose output stream raises `KeyboardInterrupt` on its
next `write`. -/
def sessKI : Session :=
  { sessW with stdout := ⟨[], 0, some .keyboardInterrupt, none⟩ }

/-- C8 counterexample: the claim says EVERY ordinary failure raised
while a request executes is captured and rejects the promise.  In
`BaseReadRequest.execute` the empty-buffer refill
(`session.buffer += session.stdin.readline()`) runs OUTSIDE the
`try` block, so an ordinary stream fault there propagates out of
`execute` uncaught (`raised`, not `rejected`): on a session with an
empty buffer whose `readline` raises an ordinary error, the executed
promise is neither resolved nor rejected. -/
theorem failure_capture_counterexample :
    (Request.execute (.read 2) sessBad).1 = .raised (.error "stream fault".toList) ∧
    (Request.execute (.read 2) sessBad).1.isSettled = false ∧
    PyErr.error "stream fault".toList ≠ PyErr.keyboardInterrupt := by decide

/-- C8 (amended): an ordinary failure raised inside a request's guarded
body (e.g. a stream fault during `WriteRequest.execute`) is captured
and rejects the promise, and the worker continues with the next
request; a `KeyboardInterrupt` propagates out of `execute`, leaving the
promise unresolved and stopping the worker; but an ordinary failure
raised by the empty-buffer refill of `BaseReadRequest.execute` — which
sits outside the `try` block — likewise propagates with the promise
unresolved; a fault-free read always settles its promise. -/
theorem failure_capture_amended (s : Session) (msg m : List Char) (n : Nat)
    (af errFlag : Bool) (rs : List Request)
    (slice : List Char → List Char × List Char) :
    ((if errFlag then s.stderr else s.stdout).writeFault = some (.error m) →
      Request.execute (.write msg errFlag af) s = (.rejected m, s) ∧
      runRequests (.write msg errFlag af :: rs) s
        = (.rejected m :: (runRequests rs s).1, (runRequests rs s).2)) ∧
    ((if errFlag then s.stderr else s.stdout).writeFault = some .keyboardInterrupt →
      Request.execute (.write msg errFlag af) s = (.raised .keyboardInterrupt, s) ∧
      runRequests (.write msg errFlag af :: rs) s = ([.raised .keyboardInterrupt], s)) ∧
    (isempty s.buffer = true → s.stdin.fault = some (.error m) →
      baseReadExecute slice s = (.raised (.error m), s) ∧
      Request.execute (.read n) s = (.raised (.error m), s) ∧
      runRequests (.read n :: rs) s = ([.raised (.error m)], s)) ∧
    (s.stdin.fault = none → (Request.execute (.read n) s).1.isSettled = true) := by
  refine ⟨fun hw => ?_, fun hw => ?_, fun hb hf => ?_, fun hf => ?_⟩
  · have he : Request.execute (.write msg errFlag af) s = (.rejected m, s) := by
      cases errFlag <;>
        simp_all [Request.execute, writeExecute, OutStream.write, guarded, ExecResult.map]
    refine ⟨he, ?_⟩
    simp [runRequests, he]
  · have he : Request.execute (.write msg errFlag af) s
        = (.raised .keyboardInterrupt, s) := by
      cases errFlag <;>
        simp_all [Request.execute, writeExecute, OutStream.write, guarded, ExecResult.map]
    refine ⟨he, ?_⟩
    simp [runRequests, he]
  · have he : ∀ sl, baseReadExecute sl s = (.raised (.error m), s) := by
      intro sl
      simp [baseReadExecute, refillIfEmpty, InStream.readline, hb, hf]
    have he2 : Request.execute (.read n) s = (.raised (.error m), s) := by
      simp [Request.execute, he, ExecResult.map]
    refine ⟨he slice, he2, ?_⟩
    simp [runRequests, he2]
  · rw [(read_n_semantics n s hf).1]
    rfl

/-- C8 witness: the amended theorem at concrete sessions — an ordinary
write fault is rejected and the worker continues, a `KeyboardInterrupt`
propagates and stops the worker, and a refill fault propagates with the
promise unresolved. -/
theorem failure_capture_amended_witness :
    sessWF.stdout.writeFault = some (.error "io fail".toList) ∧
    Request.execute (.write "x".toList false false) sessWF
      = (.rejected "io fail".toList, sessWF) ∧
    sessKI.stdout.writeFault = some PyErr.keyboardInterrupt ∧
    runRequests [.write "x".toList false false] sessKI
      = ([.raised .keyboardInterrupt], sessKI) ∧
    isempty sessBad.buffer = true ∧
    sessBad.stdin.fault = some (.error "stream fault".toList) ∧
    runRequests [.read 2] sessBad
      = ([.raised (.error "stream fault".toList)], sessBad) :=
  ⟨rfl,
   ((failure_capture_amended sessWF "x".toList "io fail".toList 2 false false []
      readAllSlice).1 rfl).1,
   rfl,
   ((failure_capture_amended sessKI "x".toList "io fail".toList 2 false false []
      readAllSlice).2.1 rfl).2,
   rfl, rfl,
   ((failure_capture_amended sessBad "x".toList "stream fault".toList 2 false false []
      readAllSlice).2.2.1 rfl rfl).2.2⟩

end CliBroker
